import Mathlib

/-!
# db/mongo/common.go

A shallow embedding of `buildMongoURI`, `shouldRetry` and
`MongoConfig.ValidateAndSetDefaults`, followed by the properties proved of them.

Go strings are embedded as `String`, `[]string` as `List String`, and the Go
integers (`int`, `int32`, `time.Duration`) as `Int`: the code only compares and
prints them, it never does arithmetic on them, so no overflow can occur.
A method with a pointer receiver that mutates its receiver and returns an
`error` becomes a function returning the error together with the receiver
after the call.
-/

namespace Mongo

/-! ## Data model -/

/-- Modelled from the spec: the declaration of the `MongoConfig` struct is not in
`common.go`; the fields are the ones of the Configuration record of the data model
(Uri, Address, Username, Password, Database, MaxPoolSize, MaxRetry, ConnTimeout).
`ConnTimeout` is a `time.Duration`, a count of nanoseconds. -/
structure MongoConfig where
  Uri : String
  Address : List String
  Database : String
  Username : String
  Password : String
  MaxPoolSize : Int
  MaxRetry : Int
  ConnTimeout : Int
deriving DecidableEq, Repr

/-- A Go `error` interface value, by its dynamic type.
* `nil`: the nil error;
* `plain msg`: an error with a message and nothing inside it (`errors.New`, a
  network or timeout error, a driver-internal error);
* `command ..`: a value whose dynamic type is `mongo.CommandError`, with its
  `Code`, `Message`, `Labels`, `Name` and `Wrapped` fields;
* `wrap ctx inner`: a value of some other error type that holds `inner`
  (`fmt.Errorf` with `%w`, `errs.Wrap`). -/
inductive GoError where
  | nil : GoError
  | plain (msg : String) : GoError
  | command (Code : Int) (Message : String) (Labels : List String) (Name : String)
      (Wrapped : GoError) : GoError
  | wrap (ctx : String) (inner : GoError) : GoError
deriving DecidableEq, Repr

/-- The call `errors.New(msg)`. -/
def errorsNew (msg : String) : GoError := GoError.plain msg

/-- Modelled from the spec: `errs.Wrap` lives in the `errs` package, which is not
among the sources; the spec says the validation failures are "reported as wrapped
errors carrying a descriptive message", "wrapped with contextual metadata". The
metadata (a stack trace) is left out: the context string is empty. -/
def errsWrap (err : GoError) : GoError := GoError.wrap "" err

/-! ## Constants -/

def DefaultMaxPoolSize : Int := 100

def DefaultMaxRetry : Int := 3

/-- One `time.Second`, in nanoseconds. -/
def timeSecond : Int := 1000000000

def DefaultConnTimeout : Int := 5 * timeSecond

/-! ## Formatting helpers of the Go standard library -/

/-- The call `strings.Join(elems, sep)`: nothing for no element, else the first
element followed by `sep` and the next element, in turn. -/
def stringsJoin (elems : List String) (sep : String) : String :=
  match elems with
  | [] => ""
  | e :: rest => rest.foldl (fun acc s => acc ++ sep ++ s) e

/-- The verb `%d` of `fmt.Sprintf` on an integer: its decimal digits, after a
minus sign when it is negative. -/
def fmtD (n : Int) : String :=
  if n < 0 then "-" ++ Nat.repr n.natAbs else Nat.repr n.natAbs

/-! ## The functions of `common.go` -/

/-- The credentials segment computed at the top of `buildMongoURI`. -/
def credentials (config : MongoConfig) : String :=
  if config.Username ≠ "" ∧ config.Password ≠ "" then
    config.Username ++ ":" ++ config.Password ++ "@"
  else ""

/-- The function `buildMongoURI`: the format
`mongodb://%s%s/%s?maxPoolSize=%d` filled with the credentials, the joined
addresses, the database and the pool size. -/
def buildMongoURI (config : MongoConfig) : String :=
  "mongodb://" ++ credentials config ++ stringsJoin config.Address "," ++ "/"
    ++ config.Database ++ "?maxPoolSize=" ++ fmtD config.MaxPoolSize

/-- The function `shouldRetry`: the type assertion `err.(mongo.CommandError)`
succeeds exactly on a value whose dynamic type is `mongo.CommandError`. -/
def shouldRetry (err : GoError) : Bool :=
  match err with
  | GoError.command Code _ _ _ _ => Code != 13 && Code != 18
  | _ => true

/-- The method `ValidateAndSetDefaults`: the returned error, and the receiver as
the call leaves it. -/
def ValidateAndSetDefaults (c : MongoConfig) : GoError × MongoConfig :=
  if c.Uri = "" ∧ c.Address.length = 0 then
    (errsWrap (errorsNew "either Uri or Address must be provided"), c)
  else if c.Database = "" then
    (errsWrap (errorsNew "database is required"), c)
  else
    let c1 := if c.MaxPoolSize ≤ 0 then { c with MaxPoolSize := DefaultMaxPoolSize } else c
    let c2 := if c1.MaxRetry < 0 then { c1 with MaxRetry := DefaultMaxRetry } else c1
    let c3 := if c2.ConnTimeout ≤ 0 then { c2 with ConnTimeout := DefaultConnTimeout } else c2
    let c4 := if c3.Uri = "" then { c3 with Uri := buildMongoURI c3 } else c3
    (GoError.nil, c4)

/-! ## Sample values -/

/-- The configuration of the spec's first URI example. -/
def sampleConfig : MongoConfig :=
  { Uri := "", Address := ["host1:27017", "host2:27017"], Database := "mydb",
    Username := "u", Password := "p", MaxPoolSize := 50, MaxRetry := 0, ConnTimeout := 0 }

/-- The configuration with every field empty or zero. -/
def emptyConfig : MongoConfig :=
  { Uri := "", Address := [], Database := "", Username := "", Password := "",
    MaxPoolSize := 0, MaxRetry := 0, ConnTimeout := 0 }

/-- The configuration of the spec's second URI example: a password and no user name. -/
def passwordOnlyConfig : MongoConfig :=
  { Uri := "", Address := ["host1:27017", "host2:27017"], Database := "mydb",
    Username := "", Password := "p", MaxPoolSize := 50, MaxRetry := 0, ConnTimeout := 0 }

/-- A valid configuration that leaves the pool size at zero. -/
def zeroPoolConfig : MongoConfig :=
  { Uri := "", Address := ["localhost:27017"], Database := "mydb", Username := "",
    Password := "", MaxPoolSize := 0, MaxRetry := 0, ConnTimeout := 0 }

/-- A configuration with an explicit Uri but no database name. -/
def noDatabaseConfig : MongoConfig :=
  { Uri := "mongodb://localhost:27017", Address := [], Database := "", Username := "",
    Password := "", MaxPoolSize := 0, MaxRetry := 0, ConnTimeout := 0 }

/-- A valid configuration with every numeric field negative. -/
def negativeConfig : MongoConfig :=
  { Uri := "", Address := ["localhost:27017"], Database := "mydb", Username := "",
    Password := "", MaxPoolSize := -5, MaxRetry := -1, ConnTimeout := -1 }

/-- A configuration with an explicit Uri, a database name and no Address. -/
def explicitUriConfig : MongoConfig :=
  { Uri := "mongodb://db.example:27017/app", Address := [], Database := "app",
    Username := "u", Password := "p", MaxPoolSize := 0, MaxRetry := 2, ConnTimeout := 7 }

/-- A configuration whose user name holds a colon. -/
def colonUserConfig : MongoConfig :=
  { Uri := "", Address := ["localhost:27017"], Database := "mydb", Username := "a:b",
    Password := "c", MaxPoolSize := 50, MaxRetry := 0, ConnTimeout := 0 }

/-- The same configuration with the colon moved to the password. -/
def colonPasswordConfig : MongoConfig :=
  { Uri := "", Address := ["localhost:27017"], Database := "mydb", Username := "a",
    Password := "b:c", MaxPoolSize := 50, MaxRetry := 0, ConnTimeout := 0 }

/-! ## Helper lemmas -/

theorem length_eq_zero_iff_nil (xs : List String) : xs.length = 0 ↔ xs = [] := by
  cases xs <;> simp

theorem foldl_eq_intercalate_go (sep : String) (rest : List String) (acc : String) :
    rest.foldl (fun a s => a ++ sep ++ s) acc = String.intercalate.go acc sep rest := by
  induction rest generalizing acc with
  | nil => rfl
  | cons x xs ih => simp only [List.foldl_cons, String.intercalate.go, ih]

/-- The embedded `strings.Join` is the library's join with a separator: the entries
in their order, each one kept, the separator between neighbours. -/
theorem stringsJoin_eq_intercalate (elems : List String) (sep : String) :
    stringsJoin elems sep = String.intercalate sep elems := by
  cases elems with
  | nil => rfl
  | cons e rest => exact foldl_eq_intercalate_go sep rest e

/-- A string that starts with the scheme is not empty. -/
theorem buildMongoURI_ne_empty (config : MongoConfig) : buildMongoURI config ≠ "" := by
  intro h
  have hl := congrArg String.length h
  simp only [buildMongoURI, String.length_append] at hl
  have h10 : "mongodb://".length = 10 := by decide
  have h0 : "".length = 0 := by decide
  omega

/-- The first check fails: the receiver is returned untouched with the first error. -/
theorem validate_no_endpoint (c : MongoConfig) (hU : c.Uri = "") (hA : c.Address = []) :
    ValidateAndSetDefaults c
      = (errsWrap (errorsNew "either Uri or Address must be provided"), c) := by
  simp [ValidateAndSetDefaults, hU, hA]

/-- The first check passes and the second fails. -/
theorem validate_no_database (c : MongoConfig) (hE : c.Uri ≠ "" ∨ c.Address ≠ [])
    (hD : c.Database = "") :
    ValidateAndSetDefaults c = (errsWrap (errorsNew "database is required"), c) := by
  have h1 : ¬ (c.Uri = "" ∧ c.Address.length = 0) := by
    rw [length_eq_zero_iff_nil]; tauto
  unfold ValidateAndSetDefaults
  rw [if_neg h1, if_pos hD]

/-- Both checks pass: the call returns nil and the receiver with the defaults and
the Uri filled in. -/
theorem validate_ok (c : MongoConfig) (hE : c.Uri ≠ "" ∨ c.Address ≠ [])
    (hD : c.Database ≠ "") :
    ValidateAndSetDefaults c =
      (GoError.nil,
        let c1 := if c.MaxPoolSize ≤ 0 then { c with MaxPoolSize := DefaultMaxPoolSize } else c
        let c2 := if c1.MaxRetry < 0 then { c1 with MaxRetry := DefaultMaxRetry } else c1
        let c3 := if c2.ConnTimeout ≤ 0 then { c2 with ConnTimeout := DefaultConnTimeout } else c2
        if c3.Uri = "" then { c3 with Uri := buildMongoURI c3 } else c3) := by
  have h1 : ¬ (c.Uri = "" ∧ c.Address.length = 0) := by
    rw [length_eq_zero_iff_nil]; tauto
  unfold ValidateAndSetDefaults
  rw [if_neg h1, if_neg hD]

/-- After a successful call the pool size is the default when it was not positive,
and the caller's otherwise. -/
theorem validate_ok_MaxPoolSize (c : MongoConfig) (hE : c.Uri ≠ "" ∨ c.Address ≠ [])
    (hD : c.Database ≠ "") :
    (ValidateAndSetDefaults c).2.MaxPoolSize
      = if c.MaxPoolSize ≤ 0 then DefaultMaxPoolSize else c.MaxPoolSize := by
  rw [validate_ok c hE hD]
  by_cases h1 : c.MaxPoolSize ≤ 0 <;> by_cases h2 : c.MaxRetry < 0 <;>
    by_cases h3 : c.ConnTimeout ≤ 0 <;> by_cases h4 : c.Uri = "" <;>
    simp [h1, h2, h3, h4]

/-- After a successful call the retry count is the default when it was negative,
and the caller's otherwise. -/
theorem validate_ok_MaxRetry (c : MongoConfig) (hE : c.Uri ≠ "" ∨ c.Address ≠ [])
    (hD : c.Database ≠ "") :
    (ValidateAndSetDefaults c).2.MaxRetry
      = if c.MaxRetry < 0 then DefaultMaxRetry else c.MaxRetry := by
  rw [validate_ok c hE hD]
  by_cases h1 : c.MaxPoolSize ≤ 0 <;> by_cases h2 : c.MaxRetry < 0 <;>
    by_cases h3 : c.ConnTimeout ≤ 0 <;> by_cases h4 : c.Uri = "" <;>
    simp [h1, h2, h3, h4]

/-- After a successful call the timeout is the default when it was not positive,
and the caller's otherwise. -/
theorem validate_ok_ConnTimeout (c : MongoConfig) (hE : c.Uri ≠ "" ∨ c.Address ≠ [])
    (hD : c.Database ≠ "") :
    (ValidateAndSetDefaults c).2.ConnTimeout
      = if c.ConnTimeout ≤ 0 then DefaultConnTimeout else c.ConnTimeout := by
  rw [validate_ok c hE hD]
  by_cases h1 : c.MaxPoolSize ≤ 0 <;> by_cases h2 : c.MaxRetry < 0 <;>
    by_cases h3 : c.ConnTimeout ≤ 0 <;> by_cases h4 : c.Uri = "" <;>
    simp [h1, h2, h3, h4]

/-- A successful call leaves Address, Database, Username and Password alone. -/
theorem validate_ok_untouched (c : MongoConfig) (hE : c.Uri ≠ "" ∨ c.Address ≠ [])
    (hD : c.Database ≠ "") :
    (ValidateAndSetDefaults c).2.Address = c.Address
      ∧ (ValidateAndSetDefaults c).2.Database = c.Database
      ∧ (ValidateAndSetDefaults c).2.Username = c.Username
      ∧ (ValidateAndSetDefaults c).2.Password = c.Password := by
  rw [validate_ok c hE hD]
  by_cases h1 : c.MaxPoolSize ≤ 0 <;> by_cases h2 : c.MaxRetry < 0 <;>
    by_cases h3 : c.ConnTimeout ≤ 0 <;> by_cases h4 : c.Uri = "" <;>
    simp [h1, h2, h3, h4]

/-- A successful call keeps a Uri the caller supplied. -/
theorem validate_ok_Uri_given (c : MongoConfig) (hU : c.Uri ≠ "") (hD : c.Database ≠ "") :
    (ValidateAndSetDefaults c).2.Uri = c.Uri := by
  rw [validate_ok c (Or.inl hU) hD]
  by_cases h1 : c.MaxPoolSize ≤ 0 <;> by_cases h2 : c.MaxRetry < 0 <;>
    by_cases h3 : c.ConnTimeout ≤ 0 <;>
    simp [h1, h2, h3, hU]

/-- A successful call on an empty Uri builds it from the caller's Address,
credentials and Database and from the pool size left by the defaults. -/
theorem validate_ok_Uri_built (c : MongoConfig) (hU : c.Uri = "") (hA : c.Address ≠ [])
    (hD : c.Database ≠ "") :
    (ValidateAndSetDefaults c).2.Uri
      = buildMongoURI { c with
          MaxPoolSize := if c.MaxPoolSize ≤ 0 then DefaultMaxPoolSize else c.MaxPoolSize } := by
  rw [validate_ok c (Or.inr hA) hD]
  by_cases h1 : c.MaxPoolSize ≤ 0 <;> by_cases h2 : c.MaxRetry < 0 <;>
    by_cases h3 : c.ConnTimeout ≤ 0 <;>
    simp [h1, h2, h3, hU, buildMongoURI, credentials]

/-- The returned error is nil exactly when both checks pass. -/
theorem validate_nil_iff (c : MongoConfig) :
    (ValidateAndSetDefaults c).1 = GoError.nil
      ↔ (c.Uri ≠ "" ∨ c.Address ≠ []) ∧ c.Database ≠ "" := by
  by_cases hE : c.Uri ≠ "" ∨ c.Address ≠ []
  · by_cases hD : c.Database = ""
    · rw [validate_no_database c hE hD]
      simp [errsWrap, hD]
    · rw [validate_ok c hE hD]
      simp [hE, hD]
  · have hU : c.Uri = "" := by by_contra h; exact hE (Or.inl h)
    have hA : c.Address = [] := by by_contra h; exact hE (Or.inr h)
    rw [validate_no_endpoint c hU hA]
    simp [errsWrap, hU, hA]

/-- A failed call returns the receiver as it was. -/
theorem validate_error_same (c : MongoConfig)
    (hErr : (ValidateAndSetDefaults c).1 ≠ GoError.nil) : (ValidateAndSetDefaults c).2 = c := by
  by_cases hE : c.Uri ≠ "" ∨ c.Address ≠ []
  · by_cases hD : c.Database = ""
    · rw [validate_no_database c hE hD]
    · exact absurd ((validate_nil_iff c).2 ⟨hE, hD⟩) hErr
  · have hU : c.Uri = "" := by by_contra h; exact hE (Or.inl h)
    have hA : c.Address = [] := by by_contra h; exact hE (Or.inr h)
    rw [validate_no_endpoint c hU hA]

/-- After a successful call the Uri is not empty. -/
theorem validate_ok_Uri_ne_empty (c : MongoConfig) (hE : c.Uri ≠ "" ∨ c.Address ≠ [])
    (hD : c.Database ≠ "") : (ValidateAndSetDefaults c).2.Uri ≠ "" := by
  by_cases hU : c.Uri = ""
  · have hA : c.Address ≠ [] := by
      rcases hE with h | h
      · exact absurd hU h
      · exact h
    rw [validate_ok_Uri_built c hU hA hD]
    exact buildMongoURI_ne_empty _
  · rw [validate_ok_Uri_given c hU hD]
    exact hU

/-- On a configuration that already has a Uri, a Database and in-range numeric
fields, the call succeeds and changes nothing. -/
theorem validate_fixed_point (c : MongoConfig) (hU : c.Uri ≠ "") (hD : c.Database ≠ "")
    (hP : 0 < c.MaxPoolSize) (hR : 0 ≤ c.MaxRetry) (hT : 0 < c.ConnTimeout) :
    ValidateAndSetDefaults c = (GoError.nil, c) := by
  rw [validate_ok c (Or.inl hU) hD]
  simp [not_le.mpr hP, not_lt.mpr hR, not_le.mpr hT, hU]

/-- The rendering of a zero or negative integer is not "100". -/
theorem fmtD_nonpos_ne_100 (n : Int) (h : n ≤ 0) : fmtD n ≠ "100" := by
  intro heq
  have hd := congrArg String.data heq
  by_cases hn : n < 0
  · simp only [fmtD, if_pos hn, String.data_append] at hd
    simp at hd
  · have h0 : n = 0 := by omega
    subst h0
    revert hd
    decide

/-- Two strings with a common front part are equal only if their back parts are. -/
theorem append_left_cancel (p a b : String) (h : p ++ a = p ++ b) : a = b := by
  have hd := congrArg String.data h
  simp only [String.data_append] at hd
  exact String.ext (List.append_cancel_left hd)

/-! ## The validator: which calls fail, and with what -/

/-- C1: `ValidateAndSetDefaults` returns no error if and only if (Uri is non-empty or
Address has at least one entry) and Database is non-empty; in every other case the
error it returns is not nil. -/
theorem C1_validate_succeeds_iff (c : MongoConfig) :
    ((ValidateAndSetDefaults c).1 = GoError.nil
        ↔ (c.Uri ≠ "" ∨ 0 < c.Address.length) ∧ c.Database ≠ "")
      ∧ ((ValidateAndSetDefaults c).1 ≠ GoError.nil
        ↔ ¬ ((c.Uri ≠ "" ∨ 0 < c.Address.length) ∧ c.Database ≠ "")) := by
  have hlen : 0 < c.Address.length ↔ c.Address ≠ [] := by
    rw [Nat.pos_iff_ne_zero, Ne, length_eq_zero_iff_nil]
  have h := validate_nil_iff c
  rw [hlen]
  exact ⟨h, not_congr h⟩

/-- C2: with empty Uri and empty Address, whatever the other fields are, the call
fails with the wrapped error "either Uri or Address must be provided", which is not
the "database is required" error. -/
theorem C2_no_endpoint_error (c : MongoConfig) (hU : c.Uri = "") (hA : c.Address = []) :
    (ValidateAndSetDefaults c).1
        = errsWrap (errorsNew "either Uri or Address must be provided")
      ∧ (ValidateAndSetDefaults c).1 ≠ errsWrap (errorsNew "database is required") := by
  rw [validate_no_endpoint c hU hA]
  refine ⟨rfl, ?_⟩
  show errsWrap (errorsNew "either Uri or Address must be provided")
    ≠ errsWrap (errorsNew "database is required")
  decide

theorem C2_no_endpoint_error_witness :
    emptyConfig.Uri = "" ∧ emptyConfig.Address = []
      ∧ (ValidateAndSetDefaults emptyConfig).1
          = errsWrap (errorsNew "either Uri or Address must be provided")
      ∧ (ValidateAndSetDefaults emptyConfig).1
          ≠ errsWrap (errorsNew "database is required") :=
  ⟨rfl, rfl, C2_no_endpoint_error emptyConfig rfl rfl⟩

/-- C3, as stated, fails: the configuration with every field empty has an empty
Database, and the call does not fail with "database is required" on it but with the
error of the first check. -/
theorem C3_counterexample :
    emptyConfig.Database = ""
      ∧ (ValidateAndSetDefaults emptyConfig).1 ≠ errsWrap (errorsNew "database is required")
      ∧ (ValidateAndSetDefaults emptyConfig).1
          = errsWrap (errorsNew "either Uri or Address must be provided") := by
  decide

/-- C3, amended: with empty Database, and Uri non-empty or Address non-empty, the
call fails with the wrapped error "database is required". -/
theorem C3_no_database_error (c : MongoConfig) (hD : c.Database = "")
    (hE : c.Uri ≠ "" ∨ c.Address ≠ []) :
    (ValidateAndSetDefaults c).1 = errsWrap (errorsNew "database is required") := by
  rw [validate_no_database c hE hD]

theorem C3_no_database_error_witness :
    noDatabaseConfig.Database = ""
      ∧ (noDatabaseConfig.Uri ≠ "" ∨ noDatabaseConfig.Address ≠ [])
      ∧ (ValidateAndSetDefaults noDatabaseConfig).1
          = errsWrap (errorsNew "database is required") :=
  ⟨rfl, Or.inl (by decide),
    C3_no_database_error noDatabaseConfig rfl (Or.inl (by decide))⟩

/-- C4: when the call returns an error, the receiver after the call equals the
receiver before it, field by field: no default is applied and no Uri is built. -/
theorem C4_failure_leaves_config (c : MongoConfig)
    (hErr : (ValidateAndSetDefaults c).1 ≠ GoError.nil) :
    (ValidateAndSetDefaults c).2 = c
      ∧ (ValidateAndSetDefaults c).2.Uri = c.Uri
      ∧ (ValidateAndSetDefaults c).2.Address = c.Address
      ∧ (ValidateAndSetDefaults c).2.Username = c.Username
      ∧ (ValidateAndSetDefaults c).2.Password = c.Password
      ∧ (ValidateAndSetDefaults c).2.Database = c.Database
      ∧ (ValidateAndSetDefaults c).2.MaxPoolSize = c.MaxPoolSize
      ∧ (ValidateAndSetDefaults c).2.MaxRetry = c.MaxRetry
      ∧ (ValidateAndSetDefaults c).2.ConnTimeout = c.ConnTimeout := by
  have hsame : (ValidateAndSetDefaults c).2 = c := by
    by_cases hE : c.Uri ≠ "" ∨ c.Address ≠ []
    · by_cases hD : c.Database = ""
      · rw [validate_no_database c hE hD]
      · exact absurd ((validate_nil_iff c).2 ⟨hE, hD⟩) hErr
    · have hU : c.Uri = "" := by by_contra h; exact hE (Or.inl h)
      have hA : c.Address = [] := by by_contra h; exact hE (Or.inr h)
      rw [validate_no_endpoint c hU hA]
  rw [hsame]
  exact ⟨rfl, rfl, rfl, rfl, rfl, rfl, rfl, rfl, rfl⟩

theorem C4_failure_leaves_config_witness :
    (ValidateAndSetDefaults noDatabaseConfig).1 ≠ GoError.nil
      ∧ (ValidateAndSetDefaults noDatabaseConfig).2 = noDatabaseConfig :=
  ⟨by decide, (C4_failure_leaves_config noDatabaseConfig (by decide)).1⟩

/-- C5: when the call succeeds, the receiver after the call has a non-empty Uri, a
non-empty Database, MaxPoolSize > 0, MaxRetry ≥ 0 and ConnTimeout > 0. -/
theorem C5_success_invariant (c : MongoConfig)
    (hOk : (ValidateAndSetDefaults c).1 = GoError.nil) :
    (ValidateAndSetDefaults c).2.Uri ≠ ""
      ∧ (ValidateAndSetDefaults c).2.Database ≠ ""
      ∧ 0 < (ValidateAndSetDefaults c).2.MaxPoolSize
      ∧ 0 ≤ (ValidateAndSetDefaults c).2.MaxRetry
      ∧ 0 < (ValidateAndSetDefaults c).2.ConnTimeout := by
  obtain ⟨hE, hD⟩ := (validate_nil_iff c).1 hOk
  rw [validate_ok_MaxPoolSize c hE hD, validate_ok_MaxRetry c hE hD,
    validate_ok_ConnTimeout c hE hD, (validate_ok_untouched c hE hD).2.1]
  simp only [DefaultMaxPoolSize, DefaultMaxRetry, DefaultConnTimeout, timeSecond]
  refine ⟨?_, hD, ?_, ?_, ?_⟩
  · by_cases hU : c.Uri = ""
    · have hA : c.Address ≠ [] := by
        rcases hE with h | h
        · exact absurd hU h
        · exact h
      rw [validate_ok_Uri_built c hU hA hD]
      exact buildMongoURI_ne_empty _
    · rw [validate_ok_Uri_given c hU hD]
      exact hU
  · split_ifs <;> omega
  · split_ifs <;> omega
  · split_ifs <;> omega

theorem C5_success_invariant_witness :
    (ValidateAndSetDefaults sampleConfig).1 = GoError.nil
      ∧ (ValidateAndSetDefaults sampleConfig).2.Uri ≠ ""
      ∧ (ValidateAndSetDefaults sampleConfig).2.Database ≠ ""
      ∧ 0 < (ValidateAndSetDefaults sampleConfig).2.MaxPoolSize
      ∧ 0 ≤ (ValidateAndSetDefaults sampleConfig).2.MaxRetry
      ∧ 0 < (ValidateAndSetDefaults sampleConfig).2.ConnTimeout :=
  ⟨by decide, C5_success_invariant sampleConfig (by decide)⟩

/-! ## The URI builder -/

/-- C6: with empty Uri, non-empty Address and non-empty Database, the Uri after the
call is "mongodb://", then the credentials segment (Username, ":", Password, "@" when
both are non-empty, nothing otherwise), then the Address entries joined with ","
(in their order, each one kept), then "/", the Database, "?maxPoolSize=" and the
decimal rendering of the pool size as the call leaves it. -/
theorem C6_built_uri_format (c : MongoConfig) (hU : c.Uri = "") (hA : c.Address ≠ [])
    (hD : c.Database ≠ "") :
    (ValidateAndSetDefaults c).2.Uri
      = "mongodb://"
        ++ (if c.Username ≠ "" ∧ c.Password ≠ "" then c.Username ++ ":" ++ c.Password ++ "@"
            else "")
        ++ String.intercalate "," c.Address ++ "/" ++ c.Database ++ "?maxPoolSize="
        ++ fmtD (ValidateAndSetDefaults c).2.MaxPoolSize := by
  rw [validate_ok_Uri_built c hU hA hD, validate_ok_MaxPoolSize c (Or.inr hA) hD]
  simp only [buildMongoURI, credentials, stringsJoin_eq_intercalate]

theorem C6_built_uri_format_witness :
    sampleConfig.Uri = "" ∧ sampleConfig.Address ≠ [] ∧ sampleConfig.Database ≠ ""
      ∧ (ValidateAndSetDefaults sampleConfig).2.Uri
          = "mongodb://u:p@host1:27017,host2:27017/mydb?maxPoolSize=50" :=
  ⟨rfl, by decide, by decide,
    (C6_built_uri_format sampleConfig rfl (by decide) (by decide)).trans (by decide)⟩

/-- C7: when Username is empty or Password is empty, `buildMongoURI` returns what it
returns with both of them cleared; that string has the host list right after
"mongodb://", with no credentials segment; and it is the same string whatever the
other credential is, so the credential contributes nothing to it. -/
theorem C7_partial_credentials_omitted (c : MongoConfig)
    (h : c.Username = "" ∨ c.Password = "") :
    buildMongoURI c = buildMongoURI { c with Username := "", Password := "" }
      ∧ buildMongoURI c
          = "mongodb://" ++ String.intercalate "," c.Address ++ "/" ++ c.Database
            ++ "?maxPoolSize=" ++ fmtD c.MaxPoolSize
      ∧ ∀ u p : String, u = "" ∨ p = "" →
          buildMongoURI { c with Username := u, Password := p } = buildMongoURI c := by
  have key : ∀ u p : String, u = "" ∨ p = "" →
      buildMongoURI { c with Username := u, Password := p }
        = "mongodb://" ++ String.intercalate "," c.Address ++ "/" ++ c.Database
          ++ "?maxPoolSize=" ++ fmtD c.MaxPoolSize := by
    intro u p hup
    have hc : ¬ (u ≠ "" ∧ p ≠ "") := by tauto
    simp only [buildMongoURI, credentials, stringsJoin_eq_intercalate, if_neg hc,
      String.append_empty]
  have hself : buildMongoURI c
      = "mongodb://" ++ String.intercalate "," c.Address ++ "/" ++ c.Database
        ++ "?maxPoolSize=" ++ fmtD c.MaxPoolSize := key c.Username c.Password h
  refine ⟨?_, hself, ?_⟩
  · rw [hself, key "" "" (Or.inl rfl)]
  · intro u p hup
    rw [hself, key u p hup]

theorem C7_partial_credentials_omitted_witness :
    (passwordOnlyConfig.Username = "" ∨ passwordOnlyConfig.Password = "")
      ∧ buildMongoURI passwordOnlyConfig
          = "mongodb://host1:27017,host2:27017/mydb?maxPoolSize=50" :=
  ⟨Or.inl rfl,
    (C7_partial_credentials_omitted passwordOnlyConfig (Or.inl rfl)).2.1.trans (by decide)⟩

/-! ## The retry classifier -/

/-- C8: on a server command error with code k, `shouldRetry` returns true if and only
if k is neither 13 nor 18; codes 13 and 18 give false, and the codes 11600, 0 and -1
give true. -/
theorem C8_command_error_retry (k : Int) (msg : String) (labels : List String)
    (name : String) (inner : GoError) :
    (shouldRetry (GoError.command k msg labels name inner) = true ↔ k ≠ 13 ∧ k ≠ 18)
      ∧ shouldRetry (GoError.command 13 msg labels name inner) = false
      ∧ shouldRetry (GoError.command 18 msg labels name inner) = false
      ∧ shouldRetry (GoError.command 11600 msg labels name inner) = true
      ∧ shouldRetry (GoError.command 0 msg labels name inner) = true
      ∧ shouldRetry (GoError.command (-1) msg labels name inner) = true := by
  refine ⟨?_, ?_, ?_, ?_, ?_, ?_⟩ <;> simp [shouldRetry]

/-- C9: on an error value whose dynamic type is not `mongo.CommandError` (the nil
error among them), `shouldRetry` returns true. -/
theorem C9_other_error_retry (e : GoError)
    (h : ∀ k msg labels name inner, e ≠ GoError.command k msg labels name inner) :
    shouldRetry e = true := by
  cases e with
  | nil => rfl
  | plain msg => rfl
  | command k msg labels name inner => exact absurd rfl (h k msg labels name inner)
  | wrap ctx inner => rfl

theorem C9_other_error_retry_witness :
    shouldRetry (GoError.plain "i/o timeout") = true ∧ shouldRetry GoError.nil = true :=
  ⟨C9_other_error_retry (GoError.plain "i/o timeout") (by intro k msg labels name inner h; cases h),
    C9_other_error_retry GoError.nil (by intro k msg labels name inner h; cases h)⟩

/-! ## The defaults -/

/-- C10: when the call succeeds, a pool size that was ≤ 0 before it is 100 after it,
and a pool size that was > 0 is the same after it. -/
theorem C10_max_pool_size_default (c : MongoConfig)
    (hOk : (ValidateAndSetDefaults c).1 = GoError.nil) :
    (c.MaxPoolSize ≤ 0 → (ValidateAndSetDefaults c).2.MaxPoolSize = 100)
      ∧ (0 < c.MaxPoolSize → (ValidateAndSetDefaults c).2.MaxPoolSize = c.MaxPoolSize) := by
  obtain ⟨hE, hD⟩ := (validate_nil_iff c).1 hOk
  rw [validate_ok_MaxPoolSize c hE hD]
  constructor
  · intro h
    rw [if_pos h]
    rfl
  · intro h
    rw [if_neg (not_le.mpr h)]

theorem C10_max_pool_size_default_witness :
    (ValidateAndSetDefaults sampleConfig).1 = GoError.nil
      ∧ (ValidateAndSetDefaults sampleConfig).2.MaxPoolSize = 50
      ∧ (ValidateAndSetDefaults zeroPoolConfig).1 = GoError.nil
      ∧ (ValidateAndSetDefaults zeroPoolConfig).2.MaxPoolSize = 100 :=
  ⟨by decide, (C10_max_pool_size_default sampleConfig (by decide)).2 (by decide),
    by decide, (C10_max_pool_size_default zeroPoolConfig (by decide)).1 (by decide)⟩

/-- C11: when the call succeeds, a retry count that was < 0 before it is 3 after it,
a retry count of 0 stays 0, and a retry count > 0 keeps its value. -/
theorem C11_max_retry_default (c : MongoConfig)
    (hOk : (ValidateAndSetDefaults c).1 = GoError.nil) :
    (c.MaxRetry < 0 → (ValidateAndSetDefaults c).2.MaxRetry = 3)
      ∧ (c.MaxRetry = 0 → (ValidateAndSetDefaults c).2.MaxRetry = 0)
      ∧ (0 < c.MaxRetry → (ValidateAndSetDefaults c).2.MaxRetry = c.MaxRetry) := by
  obtain ⟨hE, hD⟩ := (validate_nil_iff c).1 hOk
  rw [validate_ok_MaxRetry c hE hD]
  refine ⟨?_, ?_, ?_⟩
  · intro h
    rw [if_pos h]
    rfl
  · intro h
    rw [if_neg (by omega), h]
  · intro h
    rw [if_neg (by omega)]

theorem C11_max_retry_default_witness :
    (ValidateAndSetDefaults negativeConfig).1 = GoError.nil
      ∧ (ValidateAndSetDefaults negativeConfig).2.MaxRetry = 3
      ∧ (ValidateAndSetDefaults zeroPoolConfig).1 = GoError.nil
      ∧ (ValidateAndSetDefaults zeroPoolConfig).2.MaxRetry = 0
      ∧ (ValidateAndSetDefaults explicitUriConfig).1 = GoError.nil
      ∧ (ValidateAndSetDefaults explicitUriConfig).2.MaxRetry = 2 :=
  ⟨by decide, (C11_max_retry_default negativeConfig (by decide)).1 (by decide),
    by decide, (C11_max_retry_default zeroPoolConfig (by decide)).2.1 (by decide),
    by decide, (C11_max_retry_default explicitUriConfig (by decide)).2.2 (by decide)⟩

/-- C12: when the call succeeds, a timeout that was ≤ 0 before it is 5 seconds
(5000000000 nanoseconds) after it, and a timeout that was > 0 is the same after it;
and the timeout after the call is the same whatever MaxPoolSize and MaxRetry the
caller gave, so it does not depend on the other two defaults being applied. -/
theorem C12_conn_timeout_default (c : MongoConfig)
    (hOk : (ValidateAndSetDefaults c).1 = GoError.nil) :
    (c.ConnTimeout ≤ 0 → (ValidateAndSetDefaults c).2.ConnTimeout = 5 * timeSecond)
      ∧ (c.ConnTimeout ≤ 0 → (ValidateAndSetDefaults c).2.ConnTimeout = 5000000000)
      ∧ (0 < c.ConnTimeout → (ValidateAndSetDefaults c).2.ConnTimeout = c.ConnTimeout)
      ∧ ∀ pool retry : Int,
          (ValidateAndSetDefaults { c with MaxPoolSize := pool, MaxRetry := retry }).1
              = GoError.nil
            ∧ (ValidateAndSetDefaults { c with MaxPoolSize := pool, MaxRetry := retry }).2.ConnTimeout
              = (ValidateAndSetDefaults c).2.ConnTimeout := by
  obtain ⟨hE, hD⟩ := (validate_nil_iff c).1 hOk
  rw [validate_ok_ConnTimeout c hE hD]
  refine ⟨?_, ?_, ?_, ?_⟩
  · intro h
    rw [if_pos h]
    rfl
  · intro h
    rw [if_pos h]
    rfl
  · intro h
    rw [if_neg (by omega)]
  · intro pool retry
    have hE2 : ({ c with MaxPoolSize := pool, MaxRetry := retry } : MongoConfig).Uri ≠ ""
        ∨ ({ c with MaxPoolSize := pool, MaxRetry := retry } : MongoConfig).Address ≠ [] := hE
    have hD2 : ({ c with MaxPoolSize := pool, MaxRetry := retry } : MongoConfig).Database ≠ "" :=
      hD
    exact ⟨(validate_nil_iff _).2 ⟨hE2, hD2⟩, validate_ok_ConnTimeout _ hE2 hD2⟩

theorem C12_conn_timeout_default_witness :
    (ValidateAndSetDefaults negativeConfig).1 = GoError.nil
      ∧ (ValidateAndSetDefaults negativeConfig).2.ConnTimeout = 5000000000
      ∧ (ValidateAndSetDefaults explicitUriConfig).1 = GoError.nil
      ∧ (ValidateAndSetDefaults explicitUriConfig).2.ConnTimeout = 7 :=
  ⟨by decide, (C12_conn_timeout_default negativeConfig (by decide)).2.1 (by decide),
    by decide, (C12_conn_timeout_default explicitUriConfig (by decide)).2.2.1 (by decide)⟩

/-- C15: with empty Uri, non-empty Address, non-empty Database and a pool size ≤ 0,
the Uri after the call is built from the default pool size: it ends with
"?maxPoolSize=100", it is the same for every zero or negative pool size the caller
gives, and it is not the string `buildMongoURI` gives on the caller's configuration. -/
theorem C15_uri_built_after_defaults (c : MongoConfig) (hU : c.Uri = "")
    (hA : c.Address ≠ []) (hD : c.Database ≠ "") (hP : c.MaxPoolSize ≤ 0) :
    (ValidateAndSetDefaults c).2.Uri
        = "mongodb://" ++ credentials c ++ String.intercalate "," c.Address ++ "/"
          ++ c.Database ++ "?maxPoolSize=100"
      ∧ "?maxPoolSize=100".data <:+ (ValidateAndSetDefaults c).2.Uri.data
      ∧ (∀ n : Int, n ≤ 0 →
          (ValidateAndSetDefaults { c with MaxPoolSize := n }).2.Uri
            = (ValidateAndSetDefaults c).2.Uri)
      ∧ (ValidateAndSetDefaults c).2.Uri ≠ buildMongoURI c := by
  have h100 : fmtD 100 = "100" := by decide
  have hform : ∀ n : Int, n ≤ 0 →
      (ValidateAndSetDefaults { c with MaxPoolSize := n }).2.Uri
        = "mongodb://" ++ credentials c ++ String.intercalate "," c.Address ++ "/"
          ++ c.Database ++ "?maxPoolSize=" ++ "100" := by
    intro n hn
    rw [validate_ok_Uri_built { c with MaxPoolSize := n } hU hA hD]
    simp only [buildMongoURI, credentials, stringsJoin_eq_intercalate, if_pos hn,
      DefaultMaxPoolSize, h100]
  have hself : (ValidateAndSetDefaults c).2.Uri
      = "mongodb://" ++ credentials c ++ String.intercalate "," c.Address ++ "/"
        ++ c.Database ++ "?maxPoolSize=" ++ "100" := hform c.MaxPoolSize hP
  refine ⟨?_, ?_, ?_, ?_⟩
  · rw [hself, String.append_assoc _ "?maxPoolSize=" "100"]
    rfl
  · rw [hself, String.append_assoc _ "?maxPoolSize=" "100"]
    rw [String.data_append]
    exact List.suffix_append _ _
  · intro n hn
    rw [hform n hn, hself]
  · intro heq
    rw [hself] at heq
    simp only [buildMongoURI, stringsJoin_eq_intercalate] at heq
    exact fmtD_nonpos_ne_100 c.MaxPoolSize hP (append_left_cancel _ _ _ heq).symm

theorem C15_uri_built_after_defaults_witness :
    (ValidateAndSetDefaults negativeConfig).2.Uri
        = "mongodb://localhost:27017/mydb?maxPoolSize=100"
      ∧ buildMongoURI negativeConfig = "mongodb://localhost:27017/mydb?maxPoolSize=-5" :=
  ⟨(C15_uri_built_after_defaults negativeConfig rfl (by decide) (by decide) (by decide)).1.trans
      (by decide),
    by decide⟩

/-! ## The validator: what a call changes -/

/-- C13: when the call succeeds and leaves the configuration c', a second call on c'
succeeds too and returns c' with every field as it was; the Uri set by the first call
is kept, not rebuilt. -/
theorem C13_validate_idempotent (c : MongoConfig)
    (hOk : (ValidateAndSetDefaults c).1 = GoError.nil) :
    (ValidateAndSetDefaults (ValidateAndSetDefaults c).2).1 = GoError.nil
      ∧ (ValidateAndSetDefaults (ValidateAndSetDefaults c).2).2 = (ValidateAndSetDefaults c).2
      ∧ (ValidateAndSetDefaults (ValidateAndSetDefaults c).2).2.Uri
          = (ValidateAndSetDefaults c).2.Uri := by
  obtain ⟨hE, hD⟩ := (validate_nil_iff c).1 hOk
  have hU2 : (ValidateAndSetDefaults c).2.Uri ≠ "" := validate_ok_Uri_ne_empty c hE hD
  have hD2 : (ValidateAndSetDefaults c).2.Database ≠ "" := by
    rw [(validate_ok_untouched c hE hD).2.1]
    exact hD
  have hP2 : 0 < (ValidateAndSetDefaults c).2.MaxPoolSize := by
    rw [validate_ok_MaxPoolSize c hE hD]
    simp only [DefaultMaxPoolSize]
    split_ifs <;> omega
  have hR2 : 0 ≤ (ValidateAndSetDefaults c).2.MaxRetry := by
    rw [validate_ok_MaxRetry c hE hD]
    simp only [DefaultMaxRetry]
    split_ifs <;> omega
  have hT2 : 0 < (ValidateAndSetDefaults c).2.ConnTimeout := by
    rw [validate_ok_ConnTimeout c hE hD]
    simp only [DefaultConnTimeout, timeSecond]
    split_ifs <;> omega
  have hfix := validate_fixed_point (ValidateAndSetDefaults c).2 hU2 hD2 hP2 hR2 hT2
  rw [hfix]
  exact ⟨rfl, rfl, rfl⟩

theorem C13_validate_idempotent_witness :
    (ValidateAndSetDefaults negativeConfig).1 = GoError.nil
      ∧ (ValidateAndSetDefaults negativeConfig).2 ≠ negativeConfig
      ∧ (ValidateAndSetDefaults (ValidateAndSetDefaults negativeConfig).2).1 = GoError.nil
      ∧ (ValidateAndSetDefaults (ValidateAndSetDefaults negativeConfig).2).2
          = (ValidateAndSetDefaults negativeConfig).2 :=
  ⟨by decide, by decide, (C13_validate_idempotent negativeConfig (by decide)).1,
    (C13_validate_idempotent negativeConfig (by decide)).2.1⟩

/-- C14: with a non-empty Uri and a non-empty Database the call succeeds and the Uri
after it is the caller's, whatever Address, Username, Password and MaxPoolSize are. -/
theorem C14_given_uri_kept (c : MongoConfig) (hU : c.Uri ≠ "") (hD : c.Database ≠ "") :
    (ValidateAndSetDefaults c).1 = GoError.nil
      ∧ (ValidateAndSetDefaults c).2.Uri = c.Uri := by
  exact ⟨(validate_nil_iff c).2 ⟨Or.inl hU, hD⟩, validate_ok_Uri_given c hU hD⟩

theorem C14_given_uri_kept_witness :
    explicitUriConfig.Address = []
      ∧ (ValidateAndSetDefaults explicitUriConfig).1 = GoError.nil
      ∧ (ValidateAndSetDefaults explicitUriConfig).2.Uri = "mongodb://db.example:27017/app" :=
  ⟨rfl, C14_given_uri_kept explicitUriConfig (by decide) (by decide)⟩

/-- C16: on every configuration, whether the call succeeds or fails, Address,
Username, Password and Database are the same after the call as before it. -/
theorem C16_untouched_fields (c : MongoConfig) :
    (ValidateAndSetDefaults c).2.Address = c.Address
      ∧ (ValidateAndSetDefaults c).2.Username = c.Username
      ∧ (ValidateAndSetDefaults c).2.Password = c.Password
      ∧ (ValidateAndSetDefaults c).2.Database = c.Database := by
  by_cases hOk : (ValidateAndSetDefaults c).1 = GoError.nil
  · obtain ⟨hE, hD⟩ := (validate_nil_iff c).1 hOk
    obtain ⟨h1, h2, h3, h4⟩ := validate_ok_untouched c hE hD
    exact ⟨h1, h3, h4, h2⟩
  · rw [validate_error_same c hOk]
    exact ⟨rfl, rfl, rfl, rfl⟩

/-! ## The retry classifier on wrapped errors -/

/-- C17: on an error of another type that holds an inner error, `shouldRetry` returns
true whatever the inner error is: a command error inside it is not looked at, also
when its code is 13 or 18, while the same command error passed directly gives false. -/
theorem C17_wrapped_command_error_retry (ctx : String) (inner : GoError) (k : Int)
    (msg : String) (labels : List String) (name : String) (deep : GoError) :
    shouldRetry (GoError.wrap ctx inner) = true
      ∧ shouldRetry (GoError.wrap ctx (GoError.command k msg labels name deep)) = true
      ∧ shouldRetry (GoError.wrap ctx (GoError.command 13 msg labels name deep)) = true
      ∧ shouldRetry (GoError.wrap ctx (GoError.command 18 msg labels name deep)) = true
      ∧ shouldRetry (errsWrap (GoError.command 13 msg labels name deep)) = true
      ∧ shouldRetry (GoError.command 13 msg labels name deep) = false
      ∧ shouldRetry (GoError.command 18 msg labels name deep) = false := by
  refine ⟨rfl, rfl, rfl, rfl, rfl, ?_, ?_⟩ <;> simp [shouldRetry]

/-! ## The URI builder is not injective -/

/-- C18: `buildMongoURI` is not injective: the configurations with Username "a:b",
Password "c" and with Username "a", Password "b:c", equal in every other field, are
different and give the same string. -/
theorem C18_buildMongoURI_not_injective :
    colonUserConfig ≠ colonPasswordConfig
      ∧ colonUserConfig.Username = "a:b" ∧ colonUserConfig.Password = "c"
      ∧ colonPasswordConfig.Username = "a" ∧ colonPasswordConfig.Password = "b:c"
      ∧ colonPasswordConfig = { colonUserConfig with Username := "a", Password := "b:c" }
      ∧ buildMongoURI colonUserConfig = buildMongoURI colonPasswordConfig
      ∧ buildMongoURI colonUserConfig = "mongodb://a:b:c@localhost:27017/mydb?maxPoolSize=50"
      ∧ ¬ Function.Injective buildMongoURI := by
  have hne : colonUserConfig ≠ colonPasswordConfig := by decide
  have heq : buildMongoURI colonUserConfig = buildMongoURI colonPasswordConfig := by decide
  refine ⟨hne, rfl, rfl, rfl, rfl, rfl, heq, by decide, ?_⟩
  intro hinj
  exact hne (hinj heq)

end Mongo
